import Mathlib

/-!
Shallow embedding of the TokenTracker proxy server (`proxy/proxy_server.py`)
and proofs about it.

The embedding models the request handler (`ProxyHandler`) of the source file:
request-body metadata extraction, the api-key hint, the upstream dispatch,
the non-streaming copy path, the streaming relay loop with its SSE usage
extraction, the proxy-error path, and the health-check endpoint.

Modelling conventions:
* Python JSON values are modelled by the inductive type `Json`; numeric
  literals are modelled as integers (no claim exercises floats).
* `dict.get(key, default)` is modelled by `pyGet`, which returns `none`
  when the receiver is not a dict (Python raises `AttributeError` there);
  callers thread this through `Except`-style control flow, because in the
  source an `AttributeError` aborts the enclosing `try` block (or the whole
  handler when no `try` encloses it).
* JSON objects produced by `json.loads` have unique keys with the last
  duplicate winning, so object lookup (`lookupLast`) takes the last binding.
* Upstream/response byte sequences are modelled at the granularity the code
  actually observes: the non-streaming body by its `json.loads`
  classification (`PyBytes`), and the streaming body by the classified
  `data:` lines it contributes (`DataLine`), since the streaming parser
  first concatenates all chunks and only then splits and classifies lines.
* Client-socket writes can raise `BrokenPipeError`/`ConnectionResetError`
  in the source.  In the streaming handler these failure points are inputs
  of the model: `headersOk` for the status/header write performed outside
  the `try` block (source lines 246-252), and `failAt` for the n-th
  `_write_chunk` call inside the `try` block.
-/

/-- JSON values as produced by `json.loads`. -/
inductive Json where
  | null
  | bool (b : Bool)
  | num (n : Int)
  | str (s : String)
  | arr (elems : List Json)
  | obj (fields : List (String × Json))

/-- Last-binding-wins lookup in a JSON object's field list, matching the
fact that `json.loads` builds a `dict` in which a repeated key keeps the
value of its last occurrence. -/
def lookupLast : List (String × Json) → String → Option Json
  | [], _ => none
  | (k, v) :: rest, key =>
    match lookupLast rest key with
    | some w => some w
    | none => if k = key then some v else none

/-- Python `x.get(key, default)`: `none` models the `AttributeError` raised
when `x` is not a dict; otherwise the field's value or the default. -/
def pyGet (j : Json) (key : String) (dflt : Json) : Option Json :=
  match j with
  | .obj fs => some ((lookupLast fs key).getD dflt)
  | _ => none

/-- Python `x == "lit"` for a JSON value `x` and a string literal. -/
def Json.isStr : Json → String → Bool
  | .str t, s => t = s
  | _, _ => false

/-- Python truthiness of a JSON value (`if is_streaming`). -/
def Json.truthy : Json → Bool
  | .null => false
  | .bool b => b
  | .num n => n != 0
  | .str s => s ≠ ""
  | .arr xs => !xs.isEmpty
  | .obj fs => !fs.isEmpty

/-- Whether a JSON value is an object (a Python dict). -/
def Json.isObj : Json → Bool
  | .obj _ => true
  | _ => false

/-- Model of `json.dumps` with its default separators; string escaping is
not reproduced (no claim depends on the serialized text). -/
def Json.dumps : Json → String
  | .null => "null"
  | .bool b => if b then "true" else "false"
  | .num n => toString n
  | .str s => "\"" ++ s ++ "\""
  | .arr xs => "[" ++ ", ".intercalate (xs.attach.map (fun x => Json.dumps x.1)) ++ "]"
  | .obj fs =>
      "\x7b" ++
        ", ".intercalate
          (fs.attach.map (fun kv => "\"" ++ kv.1.1 ++ "\": " ++ Json.dumps kv.1.2)) ++
      "\x7d"
decreasing_by
  · have := List.sizeOf_lt_of_mem x.2
    simp only [Json.arr.sizeOf_spec]
    omega
  · have h1 := List.sizeOf_lt_of_mem kv.2
    have h2 : sizeOf kv.1 = 1 + sizeOf kv.1.1 + sizeOf kv.1.2 := by
      cases kv.1
      simp
    simp only [Json.obj.sizeOf_spec]
    omega

/-- Python `s[:n]` on a string. -/
def strTake (s : String) (n : Nat) : String :=
  String.mk (s.data.take n)

/-- Python `s[-n:]` on a string whose length is at least `n`. -/
def strLastN (s : String) (n : Nat) : String :=
  String.mk (s.data.drop (s.length - n))

/-- Source lines 170-171: the masked api-key hint
`f"...\x7bapi_key[-8:]\x7d" if len(api_key) >= 8 else ""`. -/
def apiKeyHint (apiKey : String) : String :=
  if apiKey.length ≥ 8 then "..." ++ strLastN apiKey 8 else ""

/-- One line of the accumulated streaming body, after the classification the
source performs on it (lines 281-290): not a `data: ` line; the `[DONE]`
sentinel; a `data: ` line whose payload fails `json.loads`; or a `data: `
line whose payload parses to a JSON value. -/
inductive DataLine where
  | other
  | done
  | malformed
  | event (j : Json)

/-- The mutable locals of the SSE parsing phase of `_handle_streaming`
(source lines 255-257 and 280-311): `model`, `request_id`, `stop_reason`
and the `usage_data` dict, whose four keys are present only once assigned. -/
structure ExtractState where
  model : Json
  request_id : Json
  stop_reason : Json
  usage_input : Option Json
  usage_output : Option Json
  usage_cache_creation : Option Json
  usage_cache_read : Option Json

/-- Initial parser state: `request_id = ""`, `stop_reason = ""`,
`usage_data = \x7b\x7d`, and `model` as passed into `_handle_streaming`. -/
def initExtractState (model0 : Json) : ExtractState :=
  { model := model0
    request_id := .str ""
    stop_reason := .str ""
    usage_input := none
    usage_output := none
    usage_cache_creation := none
    usage_cache_read := none }

/-- Source lines 292-311: process one parsed `data:` event.  The state is
updated assignment by assignment; `.error st` models an `AttributeError`
raised against a non-dict value, carrying the state reached so far (the
exception aborts the whole line loop via the `try` at line 279). -/
def processEvent (st : ExtractState) (event : Json) : Except ExtractState ExtractState :=
  match pyGet event "type" (.str "") with
  | none => .error st
  | some etype =>
    if etype.isStr "message_start" then
      match pyGet event "message" (.obj []) with
      | none => .error st
      | some msg =>
        match pyGet msg "model" st.model with
        | none => .error st
        | some m =>
          let st := { st with model := m }
          match pyGet msg "id" (.str "") with
          | none => .error st
          | some rid =>
            let st := { st with request_id := rid }
            match pyGet msg "usage" (.obj []) with
            | none => .error st
            | some u =>
              match pyGet u "input_tokens" (.num 0) with
              | none => .error st
              | some it =>
                let st := { st with usage_input := some it }
                match pyGet u "cache_creation_input_tokens" (.num 0) with
                | none => .error st
                | some cc =>
                  let st := { st with usage_cache_creation := some cc }
                  match pyGet u "cache_read_input_tokens" (.num 0) with
                  | none => .error st
                  | some cr => .ok { st with usage_cache_read := some cr }
    else if etype.isStr "message_delta" then
      match pyGet event "usage" (.obj []) with
      | none => .error st
      | some u =>
        match pyGet u "output_tokens" (.num 0) with
        | none => .error st
        | some ot =>
          let st := { st with usage_output := some ot }
          match pyGet event "delta" (.obj []) with
          | none => .error st
          | some d =>
            match pyGet d "stop_reason" (.str "") with
            | none => .error st
            | some sr => .ok { st with stop_reason := sr }
    else
      .ok st

/-- Source lines 280-314: the `for line in lines` loop.  Non-`data:` lines,
the `[DONE]` sentinel and unparsable payloads are skipped; an exception
raised while processing an event stops the loop, keeping the state reached
so far (the surrounding `try`/`except` at lines 279 and 313). -/
def processLines (st : ExtractState) : List DataLine → ExtractState
  | [] => st
  | line :: rest =>
    match line with
    | .other => processLines st rest
    | .done => processLines st rest
    | .malformed => processLines st rest
    | .event j =>
      match processEvent st j with
      | .ok st2 => processLines st2 rest
      | .error stErr => stErr

/-- One row of the `requests` table, as assembled by
`UsageDatabase.log_request`.  Fields that the source threads through as
arbitrary Python values (anything a JSON lookup can produce) are `Json`;
fields the source only ever assigns strings or ints keep those types. -/
structure UsageRecord where
  model : Json
  endpoint : String
  input_tokens : Json
  output_tokens : Json
  cache_creation_input_tokens : Json
  cache_read_input_tokens : Json
  status_code : Int
  request_id : Json
  stop_reason : Json
  caller : String
  error : Json
  api_key_hint : String

/-- Source lines 317-331: the unconditional `log_request` call that closes
`_handle_streaming`, with `usage_data.get(key, 0)` defaults for the token
counters and `log_request`'s own default `error=""`. -/
def finalizeStreamRecord (st : ExtractState) (endpoint : String) (status : Int)
    (caller hint : String) : UsageRecord :=
  { model := st.model
    endpoint := endpoint
    input_tokens := st.usage_input.getD (.num 0)
    output_tokens := st.usage_output.getD (.num 0)
    cache_creation_input_tokens := st.usage_cache_creation.getD (.num 0)
    cache_read_input_tokens := st.usage_cache_read.getD (.num 0)
    status_code := status
    request_id := st.request_id
    stop_reason := st.stop_reason
    caller := caller
    error := .str ""
    api_key_hint := hint }

/-- The extractor finalization of `_handle_streaming` (lines 255-331 minus
the forwarding loop): run the line loop over the accumulated sequence and
build the one usage record that is logged. -/
def streamUsageRecord (model0 : Json) (endpoint : String) (status : Int)
    (caller hint : String) (lines : List DataLine) : UsageRecord :=
  finalizeStreamRecord (processLines (initExtractState model0) lines) endpoint status caller hint

/-- A chunk returned by `response.read(4096)`, modelled by the classified
`data:` lines it contributes to the accumulated sequence (the parser only
ever looks at the concatenation of all chunks). -/
abbrev Chunk := List DataLine

/-- How the upstream byte source behaves once its listed chunks are
exhausted: a normal end of stream (`read` returns `b""`) or a raised
read error. -/
inductive StreamEnd where
  | eof
  | readError

/-- The upstream streaming byte source passed to `_handle_streaming`. -/
structure UpstreamStream where
  chunks : List Chunk
  ending : StreamEnd

/-- Terminal state of the forwarding loop: normal completion, a client
write that raised (`BrokenPipeError`/`ConnectionResetError`), or an
upstream read that raised. -/
inductive TerminalState where
  | completed
  | clientDisconnected
  | upstreamError

/-- Result of the `try` block at source lines 260-276: the data arguments
of the successful `_write_chunk` calls, the accumulated byte sequence, and
the terminal state the loop reached. -/
structure RelayResult where
  writes : List Chunk
  accumulated : List DataLine
  terminal : TerminalState

/-- The `self._write_chunk(b"")` at source line 271, reached only when the
loop exits via `break`; `failAt = some idx` means the `idx`-th
`_write_chunk` call raises. -/
def finalEmptyChunk (failAt : Option Nat) (idx : Nat) (writes : List Chunk)
    (acc : List DataLine) : RelayResult :=
  if failAt = some idx then
    { writes := writes, accumulated := acc, terminal := .clientDisconnected }
  else
    { writes := writes ++ [[]], accumulated := acc, terminal := .completed }

/-- Source lines 260-276: the forwarding loop.  Reads chunks in order; an
empty chunk means end of stream (`break`, then the final empty chunk); a
failing client write stops forwarding without accumulating the failed
chunk; exhausting the chunk list either ends the stream (`eof`) or raises
an upstream read error. -/
def relayLoop (failAt : Option Nat) (idx : Nat) (writes : List Chunk)
    (acc : List DataLine) : List Chunk → StreamEnd → RelayResult
  | [], .eof => finalEmptyChunk failAt idx writes acc
  | [], .readError => { writes := writes, accumulated := acc, terminal := .upstreamError }
  | c :: rest, ending =>
    if c.isEmpty then
      finalEmptyChunk failAt idx writes acc
    else if failAt = some idx then
      { writes := writes, accumulated := acc, terminal := .clientDisconnected }
    else
      relayLoop failAt (idx + 1) (writes ++ [c]) (acc ++ c) rest ending

/-- Result of `_handle_streaming`: `terminal = none` and no writes or
records when the status/header write to the client raised (source lines
246-252, outside any `try`, so the exception propagates and `log_request`
is never reached); otherwise the loop result plus the single record from
the unconditional `log_request` at lines 317-331. -/
structure StreamResult where
  chunkWrites : List Chunk
  terminal : Option TerminalState
  records : List UsageRecord
  raised : Bool

/-- Source lines 242-331: `_handle_streaming`. -/
def handleStreaming (model0 : Json) (endpoint : String) (caller hint : String)
    (status : Int) (up : UpstreamStream) (headersOk : Bool) (failAt : Option Nat) :
    StreamResult :=
  if headersOk then
    let loop := relayLoop failAt 0 [] [] up.chunks up.ending
    { chunkWrites := loop.writes
      terminal := some loop.terminal
      records := [streamUsageRecord model0 endpoint status caller hint loop.accumulated]
      raised := false }
  else
    { chunkWrites := [], terminal := none, records := [], raised := true }

/-- A Python byte string as the handler observes it: empty, bytes on which
`json.loads` raises (`JSONDecodeError`/`UnicodeDecodeError`), or bytes
parsing to a JSON value.  Distinct raw texts stay distinct values, so value
equality models byte equality. -/
inductive PyBytes where
  | empty
  | malformed (raw : String)
  | json (j : Json)

/-- Source lines 340-377: `_parse_and_log_usage`.  `.error ()` models the
uncaught `AttributeError` raised when the parsed body is not a dict (the
local `try` only catches decode errors), in which case `log_request` is
never reached. -/
def parseAndLogUsage (model0 : Json) (endpoint : String) (status : Int)
    (caller hint : String) (body : PyBytes) : Except Unit UsageRecord :=
  let defaultRecord : UsageRecord :=
    { model := model0, endpoint := endpoint
      input_tokens := .num 0, output_tokens := .num 0
      cache_creation_input_tokens := .num 0, cache_read_input_tokens := .num 0
      status_code := status, request_id := .str "", stop_reason := .str ""
      caller := caller, error := .str "", api_key_hint := hint }
  match body with
  | .empty =>
    .ok { defaultRecord with
          error := .str ("Non-JSON response (status " ++ toString status ++ ")") }
  | .malformed _ =>
    .ok { defaultRecord with
          error := .str ("Non-JSON response (status " ++ toString status ++ ")") }
  | .json data =>
    if status = 200 then
      match pyGet data "id" (.str "") with
      | none => .error ()
      | some rid =>
        match pyGet data "stop_reason" (.str "") with
        | none => .error ()
        | some sr =>
          match pyGet data "model" model0 with
          | none => .error ()
          | some m =>
            match pyGet data "usage" (.obj []) with
            | none => .error ()
            | some usage =>
              match pyGet usage "input_tokens" (.num 0) with
              | none => .error ()
              | some it =>
                match pyGet usage "output_tokens" (.num 0) with
                | none => .error ()
                | some ot =>
                  match pyGet usage "cache_creation_input_tokens" (.num 0) with
                  | none => .error ()
                  | some cc =>
                    match pyGet usage "cache_read_input_tokens" (.num 0) with
                    | none => .error ()
                    | some cr =>
                      .ok { defaultRecord with
                            model := m, request_id := rid, stop_reason := sr
                            input_tokens := it, output_tokens := ot
                            cache_creation_input_tokens := cc
                            cache_read_input_tokens := cr }
    else
      match pyGet data "error" (.obj []) with
      | none => .error ()
      | some errObj =>
        match pyGet errObj "message" (.str (strTake data.dumps 200)) with
        | none => .error ()
        | some msg => .ok { defaultRecord with error := msg }

/-- Result of `_handle_non_streaming`: the status and body passed to the
client write (which happen before any usage parsing), the records written,
and whether the usage-parsing phase raised. -/
structure NonStreamResult where
  clientStatus : Int
  clientBody : PyBytes
  records : List UsageRecord
  raised : Bool

/-- Source lines 223-240: `_handle_non_streaming`.  The upstream body is
written to the client verbatim, then `_parse_and_log_usage` runs over the
same buffer. -/
def handleNonStreaming (model0 : Json) (endpoint : String) (caller hint : String)
    (status : Int) (body : PyBytes) : NonStreamResult :=
  match parseAndLogUsage model0 endpoint status caller hint body with
  | .ok r => { clientStatus := status, clientBody := body, records := [r], raised := false }
  | .error _ => { clientStatus := status, clientBody := body, records := [], raised := true }

/-- Source lines 155-164: extract `model` and `stream` from the request
body.  An empty body is never parsed; a body that fails `json.loads` keeps
the defaults (the `except` catches only decode errors); a body parsing to a
non-dict raises an uncaught `AttributeError` at `request_json.get`. -/
def parseRequestMeta : PyBytes → Except Unit (Json × Json)
  | .empty => .ok (.str "unknown", .bool false)
  | .malformed _ => .ok (.str "unknown", .bool false)
  | .json j =>
    match pyGet j "model" (.str "unknown") with
    | none => .error ()
    | some m =>
      match pyGet j "stream" (.bool false) with
      | none => .error ()
      | some s => .ok (m, s)

/-- One inbound HTTP request as `_proxy_request` observes it. -/
structure InboundRequest where
  path : String
  body : PyBytes
  caller : String
  apiKey : String

/-- Outcome of `conn.request`/`conn.getresponse` (source lines 191-193):
either the connect/send raised, or an upstream response with a status, a
buffered body view (used by the non-streaming path) and a streaming view
(used by the streaming path) of the same byte source. -/
inductive UpstreamOutcome where
  | connectFail
  | response (status : Int) (body : PyBytes) (stream : UpstreamStream)

/-- What the client connection receives. -/
inductive ClientOutput where
  | jsonError (status : Int) (body : Json)
  | direct (status : Int) (body : PyBytes)
  | chunked (status : Int) (writes : List Chunk)

/-- Which response handler `_proxy_request` dispatched to (source lines
208-219). -/
inductive HandlerPath where
  | streaming
  | direct

/-- Observable result of one request: the client-visible output (`none`
when the handler raised before responding), the usage records appended,
the number of upstream connection attempts, the dispatch taken, and
whether an exception propagated out of the handler. -/
structure ProxyResult where
  output : Option ClientOutput
  records : List UsageRecord
  upstreamAttempts : Nat
  pathTaken : Option HandlerPath
  raised : Bool

/-- Source lines 379-387: the JSON body built by `_send_error`. -/
def sendErrorBody (message : String) : Json :=
  .obj [("error", .obj [("type", .str "proxy_error"), ("message", .str message)])]

/-- Source lines 197-202: the record logged when connecting to the
upstream fails, with `log_request` defaults for the unpassed fields. -/
def connectFailRecord (model0 : Json) (endpoint caller hint errMsg : String) : UsageRecord :=
  { model := model0, endpoint := endpoint
    input_tokens := .num 0, output_tokens := .num 0
    cache_creation_input_tokens := .num 0, cache_read_input_tokens := .num 0
    status_code := 0, request_id := .str "", stop_reason := .str ""
    caller := caller, error := .str ("Connection failed: " ++ errMsg)
    api_key_hint := hint }

/-- Source lines 145-221: `_proxy_request`.  `errMsg` is the text of the
exception raised on a failed connect; `headersOk`/`failAt` describe the
client connection during a streaming response. -/
def proxyRequest (req : InboundRequest) (up : UpstreamOutcome) (errMsg : String)
    (headersOk : Bool) (failAt : Option Nat) : ProxyResult :=
  match parseRequestMeta req.body with
  | .error _ =>
    { output := none, records := [], upstreamAttempts := 0, pathTaken := none, raised := true }
  | .ok (model, isStreaming) =>
    let hint := apiKeyHint req.apiKey
    match up with
    | .connectFail =>
      { output := some (.jsonError 502 (sendErrorBody ("Proxy error: " ++ errMsg)))
        records := [connectFailRecord model req.path req.caller hint errMsg]
        upstreamAttempts := 1, pathTaken := none, raised := false }
    | .response status body stream =>
      if isStreaming.truthy ∧ status = 200 then
        let r := handleStreaming model req.path req.caller hint status stream headersOk failAt
        { output := if r.raised then none else some (.chunked status r.chunkWrites)
          records := r.records, upstreamAttempts := 1
          pathTaken := some .streaming, raised := r.raised }
      else
        let r := handleNonStreaming model req.path req.caller hint status body
        { output := some (.direct status body)
          records := r.records, upstreamAttempts := 1
          pathTaken := some .direct, raised := r.raised }

/-- Source lines 396: the fixed health-check body
`\x7b"status": "ok", "proxy": "TokenTracker"\x7d`. -/
def healthBody : Json :=
  .obj [("status", .str "ok"), ("proxy", .str "TokenTracker")]

/-- Source lines 393-403: `do_GET`.  `GET /_health` is answered locally
with the fixed body; everything else goes through `_proxy_request`. -/
def doGET (req : InboundRequest) (up : UpstreamOutcome) (errMsg : String)
    (headersOk : Bool) (failAt : Option Nat) : ProxyResult :=
  if req.path = "/_health" then
    { output := some (.direct 200 (.json healthBody))
      records := [], upstreamAttempts := 0, pathTaken := none, raised := false }
  else
    proxyRequest req up errMsg headersOk failAt

/-- Builder for an optional JSON object field, used to state claims about
events in which a field may be absent. -/
def optField (k : String) : Option Json → List (String × Json)
  | none => []
  | some v => [(k, v)]

/-- A `message_start` event whose message fields may each be absent. -/
def msgStartEvent (m rid itok cc cr : Option Json) : Json :=
  .obj [("type", .str "message_start"),
        ("message", .obj (optField "model" m ++ optField "id" rid ++
          [("usage", .obj (optField "input_tokens" itok ++
             optField "cache_creation_input_tokens" cc ++
             optField "cache_read_input_tokens" cr))]))]

/-- A `message_delta` event whose fields may each be absent. -/
def msgDeltaEvent (otok sr : Option Json) : Json :=
  .obj [("type", .str "message_delta"),
        ("usage", .obj (optField "output_tokens" otok)),
        ("delta", .obj (optField "stop_reason" sr))]

/-- A line the extractor passes over without touching its state and
without raising: anything but a dict event of type `message_start` or
`message_delta`. -/
def DataLine.inert : DataLine → Bool
  | .other => true
  | .done => true
  | .malformed => true
  | .event j =>
    match pyGet j "type" (.str "") with
    | none => false
    | some t => !(t.isStr "message_start") && !(t.isStr "message_delta")

theorem processEvent_inert (st : ExtractState) (j : Json)
    (h : DataLine.inert (.event j) = true) : processEvent st j = .ok st := by
  simp only [DataLine.inert] at h
  cases heq : pyGet j "type" (.str "") with
  | none => rw [heq] at h; simp at h
  | some t =>
    rw [heq] at h
    simp only [Bool.and_eq_true, Bool.not_eq_true'] at h
    simp only [processEvent, heq, h.1, h.2]
    simp

theorem processLines_append_inert (st : ExtractState) (p rest : List DataLine)
    (hp : ∀ l ∈ p, l.inert = true) :
    processLines st (p ++ rest) = processLines st rest := by
  induction p generalizing st with
  | nil => rfl
  | cons l p ih =>
    have hp' : ∀ x ∈ p, x.inert = true := fun x hx => hp x (by simp [hx])
    cases l with
    | other => simpa [processLines] using ih st hp'
    | done => simpa [processLines] using ih st hp'
    | malformed => simpa [processLines] using ih st hp'
    | event j =>
      have hok := processEvent_inert st j (hp _ (by simp))
      show processLines st (.event j :: (p ++ rest)) = _
      simp [processLines, hok, ih st hp']

theorem processLines_cons_event (st st2 : ExtractState) (j : Json) (rest : List DataLine)
    (h : processEvent st j = .ok st2) :
    processLines st (.event j :: rest) = processLines st2 rest := by
  simp [processLines, h]

/-- Claim C3 counterexample: for the 8-character credential `"abcdefgh"`,
the code produces the hint `"...abcdefgh"` (an ellipsis prefix plus the
last 8 characters), not the bare last 8 characters the claim requires. -/
theorem claim_C3_counterexample :
    apiKeyHint "abcdefgh" = "...abcdefgh" ∧ ("...abcdefgh" : String) ≠ "abcdefgh" := by
  exact ⟨rfl, by decide⟩

/-- Claim C3 (amended): a credential shorter than 8 characters yields an
empty hint; a credential of 8 or more characters yields `"..."` followed by
its last 8 characters. -/
theorem claim_C3_amended (s : String) :
    (s.length < 8 → apiKeyHint s = "") ∧
    (8 ≤ s.length →
      ∃ p t : String, s = p ++ t ∧ t.length = 8 ∧ apiKeyHint s = "..." ++ t) := by
  constructor
  · intro h
    unfold apiKeyHint
    rw [if_neg (by omega)]
  · intro h
    refine ⟨String.mk (s.data.take (s.length - 8)), strLastN s 8, ?_, ?_, ?_⟩
    · have h1 : s.data.take (s.length - 8) ++ s.data.drop (s.length - 8) = s.data :=
        List.take_append_drop _ _
      calc s = String.mk s.data := rfl
        _ = String.mk (s.data.take (s.length - 8) ++ s.data.drop (s.length - 8)) := by
              rw [h1]
        _ = String.mk (s.data.take (s.length - 8)) ++ strLastN s 8 := rfl
    · show (s.data.drop (s.length - 8)).length = 8
      have hlen : s.length = s.data.length := rfl
      rw [List.length_drop]
      omega
    · unfold apiKeyHint
      rw [if_pos h]

/-- Claim C3 witness: the amended statement applied to a 2-character and a
12-character credential. -/
theorem claim_C3_witness :
    apiKeyHint "xy" = "" ∧
    (∃ p t : String, "secretapikey" = p ++ t ∧ t.length = 8 ∧
      apiKeyHint "secretapikey" = "..." ++ t) :=
  ⟨(claim_C3_amended "xy").1 (by decide), (claim_C3_amended "secretapikey").2 (by decide)⟩

theorem processEvent_msgStart (st : ExtractState) (m rid itok cc cr : Option Json) :
    processEvent st (msgStartEvent m rid itok cc cr) =
      .ok { st with
            model := m.getD st.model
            request_id := rid.getD (.str "")
            usage_input := some (itok.getD (.num 0))
            usage_cache_creation := some (cc.getD (.num 0))
            usage_cache_read := some (cr.getD (.num 0)) } := by
  rcases m with _ | mv <;> rcases rid with _ | rv <;> rcases itok with _ | iv <;>
    rcases cc with _ | cv <;> rcases cr with _ | crv <;> rfl

theorem processEvent_msgDelta (st : ExtractState) (otok sr : Option Json) :
    processEvent st (msgDeltaEvent otok sr) =
      .ok { st with
            usage_output := some (otok.getD (.num 0))
            stop_reason := sr.getD (.str "") } := by
  rcases otok with _ | ov <;> rcases sr with _ | sv <;> rfl

/-- Claim C6: in the direct-copy path, the body passed to the client write
equals the body read from the upstream, and the relayed status is the
upstream status, whatever the body is and whether or not the usage-parsing
phase succeeds afterwards. -/
theorem claim_C6 (model0 : Json) (endpoint caller hint : String) (status : Int)
    (body : PyBytes) :
    (handleNonStreaming model0 endpoint caller hint status body).clientBody = body ∧
    (handleNonStreaming model0 endpoint caller hint status body).clientStatus = status := by
  unfold handleNonStreaming
  cases parseAndLogUsage model0 endpoint status caller hint body with
  | ok r => exact ⟨rfl, rfl⟩
  | error e => exact ⟨rfl, rfl⟩

/-- Claim C9: `GET /_health` is answered locally with the fixed 200 JSON
body, appends no usage record, and never touches the upstream, whatever
the rest of the request and the upstream environment look like. -/
theorem claim_C9 (req : InboundRequest) (up : UpstreamOutcome) (errMsg : String)
    (headersOk : Bool) (failAt : Option Nat) (hpath : req.path = "/_health") :
    doGET req up errMsg headersOk failAt =
      { output := some (.direct 200 (.json healthBody))
        records := [], upstreamAttempts := 0, pathTaken := none, raised := false } := by
  unfold doGET
  rw [if_pos hpath]

/-- Claim C9 witness: the health check on a concrete request and a
concrete (failing) upstream. -/
theorem claim_C9_witness :
    doGET ⟨"/_health", .empty, "", ""⟩ .connectFail "connection refused" true none =
      { output := some (.direct 200 (.json healthBody))
        records := [], upstreamAttempts := 0, pathTaken := none, raised := false } :=
  claim_C9 ⟨"/_health", .empty, "", ""⟩ .connectFail "connection refused" true none rfl

/-- Claim C10: a request body that is valid JSON but not a JSON object
makes the handler raise at `request_json.get` (only decode errors are
caught), so no response is sent, no record is written and the upstream is
never contacted. -/
theorem claim_C10 (req : InboundRequest) (up : UpstreamOutcome) (errMsg : String)
    (headersOk : Bool) (failAt : Option Nat) (j : Json)
    (hbody : req.body = .json j) (hobj : j.isObj = false) :
    proxyRequest req up errMsg headersOk failAt =
      { output := none, records := [], upstreamAttempts := 0
        pathTaken := none, raised := true } := by
  have hmeta : parseRequestMeta req.body = .error () := by
    rw [hbody]
    cases j with
    | obj fs => simp [Json.isObj] at hobj
    | null => rfl
    | bool b => rfl
    | num n => rfl
    | str s => rfl
    | arr xs => rfl
  unfold proxyRequest
  rw [hmeta]

/-- Claim C10 witness: a request whose body is the JSON number `7`. -/
theorem claim_C10_witness :
    proxyRequest ⟨"/v1/messages", .json (.num 7), "", ""⟩
        (.response 200 .empty ⟨[], .eof⟩) "" true none =
      { output := none, records := [], upstreamAttempts := 0
        pathTaken := none, raised := true } :=
  claim_C10 ⟨"/v1/messages", .json (.num 7), "", ""⟩
    (.response 200 .empty ⟨[], .eof⟩) "" true none (.num 7) rfl rfl

/-- Claim C1 counterexample: a streaming-path request (stream truthy,
status 200) during which the initial status/header write to the client
raises (source lines 246-252 are outside the `try` block) ends with no
usage record at all, so the record write is skippable by an error path
prior to it. -/
theorem claim_C1_counterexample :
    (handleStreaming (.str "unknown") "/v1/messages" "" "" 200
        ⟨[[.event (.obj [("type", .str "message_start")])]], .eof⟩ false none).records
      = [] := rfl

/-- Claim C1 (amended): whenever the initial status/header write to the
client succeeds, `_handle_streaming` writes exactly one usage record, for
every upstream behaviour (any chunk sequence, normal end or read error)
and every client behaviour during chunk forwarding (any `_write_chunk`
call may raise): the forwarding loop and the SSE parse are both wrapped in
`try` blocks, so `log_request` is always reached. -/
theorem claim_C1_amended (model0 : Json) (endpoint caller hint : String) (status : Int)
    (up : UpstreamStream) (failAt : Option Nat) :
    (handleStreaming model0 endpoint caller hint status up true failAt).records.length
      = 1 := rfl

theorem getLast?_ne_some_of_not_mem {α : Type} {l : List α} {a : α} (h : a ∉ l) :
    l.getLast? ≠ some a := by
  intro hl
  rcases List.mem_getLast?_eq_getLast (show a ∈ l.getLast? from hl) with ⟨hne, heq⟩
  exact h (heq ▸ List.getLast_mem hne)

theorem relayLoop_completed_iff (failAt : Option Nat) (idx : Nat) (writes : List Chunk)
    (acc : List DataLine) (cs : List Chunk) (ending : StreamEnd)
    (hw : ([] : Chunk) ∉ writes) :
    ((relayLoop failAt idx writes acc cs ending).terminal = .completed ↔
      (relayLoop failAt idx writes acc cs ending).writes.getLast? = some []) := by
  induction cs generalizing idx writes acc with
  | nil =>
    cases ending with
    | eof =>
      unfold relayLoop finalEmptyChunk
      by_cases h : failAt = some idx
      · rw [if_pos h]
        constructor
        · intro ht; exact absurd ht (by simp)
        · intro hl; exact absurd hl (getLast?_ne_some_of_not_mem hw)
      · rw [if_neg h]
        constructor
        · intro _
          show (writes ++ [([] : Chunk)]).getLast? = some []
          rw [List.getLast?_append_cons]
          rfl
        · intro _; rfl
    | readError =>
      unfold relayLoop
      constructor
      · intro ht; exact absurd ht (by simp)
      · intro hl; exact absurd hl (getLast?_ne_some_of_not_mem hw)
  | cons c rest ih =>
    by_cases hc : c.isEmpty
    · unfold relayLoop finalEmptyChunk
      rw [if_pos hc]
      by_cases h : failAt = some idx
      · rw [if_pos h]
        constructor
        · intro ht; exact absurd ht (by simp)
        · intro hl; exact absurd hl (getLast?_ne_some_of_not_mem hw)
      · rw [if_neg h]
        constructor
        · intro _
          show (writes ++ [([] : Chunk)]).getLast? = some []
          rw [List.getLast?_append_cons]
          rfl
        · intro _; rfl
    · unfold relayLoop
      rw [if_neg (by simp [hc])]
      by_cases h : failAt = some idx
      · rw [if_pos h]
        constructor
        · intro ht; exact absurd ht (by simp)
        · intro hl; exact absurd hl (getLast?_ne_some_of_not_mem hw)
      · rw [if_neg h]
        have hcne : c ≠ [] := by
          intro hceq
          rw [hceq] at hc
          exact hc rfl
        have hw' : ([] : Chunk) ∉ writes ++ [c] := by
          intro hmem
          rcases List.mem_append.mp hmem with h1 | h1
          · exact hw h1
          · rw [List.mem_singleton] at h1
            exact hcne h1.symm
        exact ih (idx + 1) (writes ++ [c]) (acc ++ c) hw'

/-- Claim C4 counterexample: when the upstream read raises mid-stream, the
loop is exited through the `except` handler, skipping the
`self._write_chunk(b"")` at line 271, so no zero-length chunk is even
attempted: the only write is the one forwarded data chunk. -/
theorem claim_C4_counterexample :
    (handleStreaming (.str "unknown") "/v1/messages" "" "" 200
        ⟨[[.event (.obj [("type", .str "ping")])]], .readError⟩ true none).terminal
      = some .upstreamError ∧
    (handleStreaming (.str "unknown") "/v1/messages" "" "" 200
        ⟨[[.event (.obj [("type", .str "ping")])]], .readError⟩ true none).chunkWrites
      = [[.event (.obj [("type", .str "ping")])]] ∧
    ([] : Chunk) ∉ [[DataLine.event (.obj [("type", .str "ping")])]] := by
  refine ⟨rfl, rfl, ?_⟩
  intro hmem
  rw [List.mem_singleton] at hmem
  exact absurd hmem (by simp)

/-- Claim C4 (amended): the zero-length terminating chunk is written if
and only if the forwarding loop exits normally (upstream end of stream and
the final empty write itself succeeds, i.e. terminal state `Completed`);
abnormal exits — a client-write failure or an upstream-read failure — skip
it, because the exception jumps past line 271 into the `except` handlers. -/
theorem claim_C4_amended (model0 : Json) (endpoint caller hint : String) (status : Int)
    (up : UpstreamStream) (headersOk : Bool) (failAt : Option Nat) :
    ((handleStreaming model0 endpoint caller hint status up headersOk failAt).terminal
        = some .completed ↔
      (handleStreaming model0 endpoint caller hint status up headersOk
          failAt).chunkWrites.getLast? = some []) := by
  cases headersOk with
  | false =>
    constructor
    · intro ht; exact absurd ht (by simp [handleStreaming])
    · intro hl; exact absurd hl (by simp [handleStreaming])
  | true =>
    have h := relayLoop_completed_iff failAt 0 [] [] up.chunks up.ending (by simp)
    simpa [handleStreaming] using h

/-- Claim C5 counterexample: a request body declaring `"stream": 1` — a
truthy JSON value that is not the boolean `true` — still takes the
streaming relay path on a 200 response, because the source tests Python
truthiness (`if is_streaming and status == 200`), not equality with
`true`; the claim requires every such request to take the direct-copy
path. -/
theorem claim_C5_counterexample :
    (proxyRequest ⟨"/v1/messages", .json (.obj [("stream", .num 1)]), "", ""⟩
        (.response 200 .empty ⟨[], .eof⟩) "" true none).pathTaken
      = some .streaming ∧
    Json.num 1 ≠ Json.bool true := by
  refine ⟨rfl, ?_⟩
  intro h
  exact Json.noConfusion h

/-- Claim C5 (amended): given a request body whose metadata extraction
succeeds, the streaming relay path is taken if and only if the extracted
`stream` value is truthy (in the Python sense) and the upstream status is
exactly 200; every other combination takes the direct-copy path. -/
theorem claim_C5_amended (req : InboundRequest) (errMsg : String) (headersOk : Bool)
    (failAt : Option Nat) (status : Int) (body : PyBytes) (stream : UpstreamStream)
    (model isStreaming : Json)
    (hmeta : parseRequestMeta req.body = .ok (model, isStreaming)) :
    ((proxyRequest req (.response status body stream) errMsg headersOk failAt).pathTaken
        = some .streaming ↔ (isStreaming.truthy = true ∧ status = 200)) ∧
    ((proxyRequest req (.response status body stream) errMsg headersOk failAt).pathTaken
        = some .direct ↔ ¬ (isStreaming.truthy = true ∧ status = 200)) := by
  by_cases h : isStreaming.truthy = true ∧ status = 200
  · simp [proxyRequest, hmeta, h]
  · simp [proxyRequest, hmeta, h]

/-- Claim C5 witness: the amended statement applied to a request declaring
`"stream": true` and a 200 upstream response, and to the same request with
a 529 upstream response. -/
theorem claim_C5_witness :
    ((proxyRequest ⟨"/v1/messages", .json (.obj [("stream", .bool true)]), "", ""⟩
        (.response 200 .empty ⟨[], .eof⟩) "" true none).pathTaken
      = some .streaming ↔ ((Json.bool true).truthy = true ∧ (200 : Int) = 200)) ∧
    ((proxyRequest ⟨"/v1/messages", .json (.obj [("stream", .bool true)]), "", ""⟩
        (.response 529 .empty ⟨[], .eof⟩) "" true none).pathTaken
      = some .direct ↔ ¬ ((Json.bool true).truthy = true ∧ (529 : Int) = 200)) :=
  ⟨(claim_C5_amended ⟨"/v1/messages", .json (.obj [("stream", .bool true)]), "", ""⟩
      "" true none 200 .empty ⟨[], .eof⟩ (.str "unknown") (.bool true) rfl).1,
   (claim_C5_amended ⟨"/v1/messages", .json (.obj [("stream", .bool true)]), "", ""⟩
      "" true none 529 .empty ⟨[], .eof⟩ (.str "unknown") (.bool true) rfl).2⟩

/-- Claim C8: when connecting to or sending to the upstream raises, the
client gets a 502 response whose body is the structured JSON error object,
exactly one usage record is written — with zero token counts, status_code
0 and a non-empty error text — and exactly one upstream attempt is made
(no retry). -/
theorem claim_C8 (req : InboundRequest) (errMsg : String) (headersOk : Bool)
    (failAt : Option Nat) (model isStreaming : Json)
    (hmeta : parseRequestMeta req.body = .ok (model, isStreaming)) :
    proxyRequest req .connectFail errMsg headersOk failAt =
      { output := some (.jsonError 502 (sendErrorBody ("Proxy error: " ++ errMsg)))
        records := [connectFailRecord model req.path req.caller (apiKeyHint req.apiKey) errMsg]
        upstreamAttempts := 1, pathTaken := none, raised := false } ∧
    (connectFailRecord model req.path req.caller (apiKeyHint req.apiKey)
        errMsg).input_tokens = .num 0 ∧
    (connectFailRecord model req.path req.caller (apiKeyHint req.apiKey)
        errMsg).output_tokens = .num 0 ∧
    (connectFailRecord model req.path req.caller (apiKeyHint req.apiKey)
        errMsg).status_code = 0 ∧
    (connectFailRecord model req.path req.caller (apiKeyHint req.apiKey)
        errMsg).error ≠ .str "" := by
  refine ⟨?_, rfl, rfl, rfl, ?_⟩
  · unfold proxyRequest
    rw [hmeta]
  · intro h
    have hs : "Connection failed: " ++ errMsg = "" := by
      injection h
    have hlen : ("Connection failed: " ++ errMsg).data.length = ("" : String).data.length := by
      rw [hs]
    have hd : ("Connection failed: " ++ errMsg).data
        = ("Connection failed: " : String).data ++ errMsg.data := rfl
    rw [hd, List.length_append] at hlen
    simp at hlen

/-- Claim C8 witness: the theorem applied to a concrete request and error
text. -/
theorem claim_C8_witness :
    proxyRequest ⟨"/v1/messages", .empty, "cli", "sk-ant-abcd1234"⟩ .connectFail
        "getaddrinfo failed" true none =
      { output := some (.jsonError 502 (sendErrorBody "Proxy error: getaddrinfo failed"))
        records := [connectFailRecord (.str "unknown") "/v1/messages" "cli"
          (apiKeyHint "sk-ant-abcd1234") "getaddrinfo failed"]
        upstreamAttempts := 1, pathTaken := none, raised := false } ∧
    (connectFailRecord (.str "unknown") "/v1/messages" "cli"
        (apiKeyHint "sk-ant-abcd1234") "getaddrinfo failed").error ≠ .str "" := by
  have h := claim_C8 ⟨"/v1/messages", .empty, "cli", "sk-ant-abcd1234"⟩
    "getaddrinfo failed" true none (.str "unknown") (.bool false) rfl
  exact ⟨h.1, h.2.2.2.2⟩

/-- Claim C2 counterexample: an accumulated sequence whose (single, last)
`message_start` event carries no `model` field leaves the record's model
at the request-derived value (`"unknown"` here), not at the empty string
the claim's defaulting rule requires, because the source uses
`msg.get("model", model)` with the current model as the default. -/
theorem claim_C2_counterexample :
    (streamUsageRecord (.str "unknown") "/v1/messages" 200 "" ""
        [.event (.obj [("type", .str "message_start"),
           ("message", .obj [("id", .str "msg_01"),
              ("usage", .obj [("input_tokens", .num 25)])])]),
         .event (msgDeltaEvent (some (.num 42)) (some (.str "end_turn")))]).model
      = .str "unknown" ∧
    Json.str "unknown" ≠ Json.str "" := by
  refine ⟨rfl, ?_⟩
  intro h
  injection h with h'
  exact absurd h' (by decide)

/-- Claim C2 (amended): for any accumulated sequence consisting of a
`message_start` event then a `message_delta` event (in any surrounding of
lines the parser ignores), each with any subset of their fields present,
the finalized record takes each token and identity field from the value
seen in its event, defaulting absent fields to 0 or the empty string —
except `model`, which defaults to the model extracted from the request
body rather than to the empty string. -/
theorem claim_C2_amended (model0 : Json) (endpoint caller hint : String) (status : Int)
    (pre mid post : List DataLine)
    (hpre : ∀ l ∈ pre, l.inert = true) (hmid : ∀ l ∈ mid, l.inert = true)
    (hpost : ∀ l ∈ post, l.inert = true)
    (m rid itok cc cr otok sr : Option Json) :
    streamUsageRecord model0 endpoint status caller hint
        (pre ++ [.event (msgStartEvent m rid itok cc cr)] ++ mid ++
         [.event (msgDeltaEvent otok sr)] ++ post) =
      { model := m.getD model0
        endpoint := endpoint
        input_tokens := itok.getD (.num 0)
        output_tokens := otok.getD (.num 0)
        cache_creation_input_tokens := cc.getD (.num 0)
        cache_read_input_tokens := cr.getD (.num 0)
        status_code := status
        request_id := rid.getD (.str "")
        stop_reason := sr.getD (.str "")
        caller := caller
        error := .str ""
        api_key_hint := hint } := by
  unfold streamUsageRecord
  rw [show pre ++ [DataLine.event (msgStartEvent m rid itok cc cr)] ++ mid ++
        [DataLine.event (msgDeltaEvent otok sr)] ++ post
      = pre ++ (DataLine.event (msgStartEvent m rid itok cc cr) ::
          (mid ++ (DataLine.event (msgDeltaEvent otok sr) :: (post ++ []))))
    from by simp]
  rw [processLines_append_inert _ pre _ hpre]
  rw [processLines_cons_event _ _ _ _ (processEvent_msgStart _ m rid itok cc cr)]
  rw [processLines_append_inert _ mid _ hmid]
  rw [processLines_cons_event _ _ _ _ (processEvent_msgDelta _ otok sr)]
  rw [processLines_append_inert _ post _ hpost]
  rfl

/-- Claim C2 witness: the amended statement applied to a concrete pair of
full events with an ignored `ping` line between them. -/
theorem claim_C2_witness :
    streamUsageRecord (.str "unknown") "/v1/messages" 200 "cli" "...d1234567"
        ([] ++ [.event (msgStartEvent (some (.str "claude-3-opus")) (some (.str "msg_01"))
            (some (.num 25)) (some (.num 3)) (some (.num 7)))] ++ [DataLine.other] ++
         [.event (msgDeltaEvent (some (.num 42)) (some (.str "end_turn")))] ++ []) =
      { model := .str "claude-3-opus"
        endpoint := "/v1/messages"
        input_tokens := .num 25
        output_tokens := .num 42
        cache_creation_input_tokens := .num 3
        cache_read_input_tokens := .num 7
        status_code := 200
        request_id := .str "msg_01"
        stop_reason := .str "end_turn"
        caller := "cli"
        error := .str ""
        api_key_hint := "...d1234567" } :=
  claim_C2_amended (.str "unknown") "/v1/messages" "cli" "...d1234567" 200
    [] [DataLine.other] [] (by intro l hl; cases hl) (by intro l hl; rw [List.mem_singleton] at hl; subst hl; rfl)
    (by intro l hl; cases hl)
    (some (.str "claude-3-opus")) (some (.str "msg_01")) (some (.num 25)) (some (.num 3))
    (some (.num 7)) (some (.num 42)) (some (.str "end_turn"))

theorem relayLoop_readError (idx : Nat) (writes : List Chunk) (acc : List DataLine)
    (cs : List Chunk) (hcs : ∀ c ∈ cs, c ≠ []) :
    relayLoop none idx writes acc cs .readError =
      { writes := writes ++ cs, accumulated := acc ++ cs.flatten
        terminal := .upstreamError } := by
  induction cs generalizing idx writes acc with
  | nil => simp [relayLoop]
  | cons c rest ih =>
    have hc : c ≠ [] := hcs c (by simp)
    have hcs' : ∀ x ∈ rest, x ≠ [] := fun x hx => hcs x (by simp [hx])
    unfold relayLoop
    rw [if_neg (by simpa using hc)]
    rw [if_neg (by simp)]
    rw [ih (idx + 1) (writes ++ [c]) (acc ++ c) hcs']
    simp

/-- Claim C7: a streaming response that is truncated by an upstream read
failure after delivering a full `message_start` event and no
`message_delta` event still produces exactly one usage record, with
`output_tokens = 0` and the input/cache counts, model and request id taken
from the `message_start` event. -/
theorem claim_C7 (model0 : Json) (endpoint caller hint : String) (status : Int)
    (cs : List Chunk) (pre post : List DataLine)
    (m rid itok cc cr : Json)
    (hcs : ∀ c ∈ cs, c ≠ [])
    (hjoin : cs.flatten = pre ++
      [.event (msgStartEvent (some m) (some rid) (some itok) (some cc) (some cr))] ++ post)
    (hpre : ∀ l ∈ pre, l.inert = true) (hpost : ∀ l ∈ post, l.inert = true) :
    (handleStreaming model0 endpoint caller hint status ⟨cs, .readError⟩ true none).records =
      [{ model := m
         endpoint := endpoint
         input_tokens := itok
         output_tokens := .num 0
         cache_creation_input_tokens := cc
         cache_read_input_tokens := cr
         status_code := status
         request_id := rid
         stop_reason := .str ""
         caller := caller
         error := .str ""
         api_key_hint := hint }] := by
  unfold handleStreaming
  rw [if_pos rfl]
  have hloop := relayLoop_readError 0 [] [] cs hcs
  simp only [hloop]
  show [streamUsageRecord model0 endpoint status caller hint ([] ++ cs.flatten)] = _
  rw [List.nil_append, hjoin]
  unfold streamUsageRecord
  rw [show pre ++
        [DataLine.event (msgStartEvent (some m) (some rid) (some itok) (some cc) (some cr))]
        ++ post
      = pre ++ (DataLine.event (msgStartEvent (some m) (some rid) (some itok) (some cc)
            (some cr)) :: (post ++ []))
    from by simp]
  rw [processLines_append_inert _ pre _ hpre]
  rw [processLines_cons_event _ _ _ _
    (processEvent_msgStart _ (some m) (some rid) (some itok) (some cc) (some cr))]
  rw [processLines_append_inert _ post _ hpost]
  rfl

/-- Claim C7 witness: a single-chunk stream holding one full
`message_start` event, then an upstream read error. -/
theorem claim_C7_witness :
    (handleStreaming (.str "unknown") "/v1/messages" "cli" "...d1234567" 200
        ⟨[[.event (msgStartEvent (some (.str "claude-3-opus")) (some (.str "msg_01"))
            (some (.num 25)) (some (.num 3)) (some (.num 7)))]], .readError⟩
        true none).records =
      [{ model := .str "claude-3-opus"
         endpoint := "/v1/messages"
         input_tokens := .num 25
         output_tokens := .num 0
         cache_creation_input_tokens := .num 3
         cache_read_input_tokens := .num 7
         status_code := 200
         request_id := .str "msg_01"
         stop_reason := .str ""
         caller := "cli"
         error := .str ""
         api_key_hint := "...d1234567" }] :=
  claim_C7 (.str "unknown") "/v1/messages" "cli" "...d1234567" 200
    [[.event (msgStartEvent (some (.str "claude-3-opus")) (some (.str "msg_01"))
        (some (.num 25)) (some (.num 3)) (some (.num 7)))]] [] []
    (.str "claude-3-opus") (.str "msg_01") (.num 25) (.num 3) (.num 7)
    (by intro c hc; rw [List.mem_singleton] at hc; subst hc; simp)
    (by simp)
    (by intro l hl; cases hl) (by intro l hl; cases hl)
